import Mathlib

/-! ## Verification of the oemer → TensorFlow Lite conversion pipeline

Shallow embedding of the two conversion scripts
(`convert_oemer_to_tflite.py` and `convert_oemer_simple.py`) of the
Tsali-2 repository, together with proofs about the conversion,
fallback, size-budget and cleanup behaviour they implement.

External collaborators (PyTorch tracing, ONNX export, onnx-tf bridging,
the TensorFlow Lite converter, checkpoint download) are modelled as an
environment of success/failure flags plus the byte sizes of the data
they produce; the control flow, configuration logic, file writes and
removals, error wrapping and exit codes are translated line by line
from the Python source.
-/

namespace Oemer

/-! ## File-system model

Both scripts write ONNX interchange files, SavedModel directories and
`.tflite` artifacts under an output directory, each at a path that is a
fixed suffix applied to the model name. Paths are represented
structurally (directory, model name, kind of file), which mirrors the
f-string path derivations `f"{model_name}.onnx"`,
`f"{model_name}_saved_model"` and `f"{model_name}.tflite"`. -/

/-- Whether an artifact came from the real conversion chain or from the
mock generator. -/
inductive Provenance
  | real
  | mock
deriving DecidableEq, Repr

/-- A produced `.tflite` artifact: provenance, byte size, and an opaque
content tag (distinguishing byte-for-byte different files). -/
structure Artifact where
  prov : Provenance
  bytes : Nat
  tag : Nat
deriving DecidableEq, Repr

/-- The kind of file a path denotes: the `.onnx` interchange file, the
intermediate SavedModel directory, or the final `.tflite` artifact. -/
inductive FileKind
  | onnxFile
  | savedModelDir
  | tfliteFile
deriving DecidableEq, Repr

/-- A path, structured as the directory it lives in, the model name it
is derived from, and its kind (which fixes the name suffix:
`.onnx`, `_saved_model`/`_tf`, `.tflite`). -/
structure FPath where
  dir : String
  name : String
  kind : FileKind
deriving DecidableEq, Repr

/-- Contents stored at a path. -/
inductive File
  | onnx (tag : Nat)
  | savedModel (tag : Nat)
  | tflite (a : Artifact)
deriving DecidableEq, Repr

/-- File system: a partial map from paths to file contents. -/
def FS : Type := FPath → Option File

/-- The empty file system. -/
def fsEmpty : FS := fun _ => Option.none

/-- Python `open(path, "wb")` followed by a write: stores the new contents at
the path, overwriting whatever was there. -/
def fsWrite (fs : FS) (p : FPath) (f : File) : FS :=
  fun q => if q = p then some f else fs q

/-- Python `os.remove` / `shutil.rmtree`: deletes the entry at the path. -/
def fsRemove (fs : FS) (p : FPath) : FS :=
  fun q => if q = p then Option.none else fs q

/-- Python `self.output_dir / f"{model_name}.onnx"`. -/
def onnxPath (dir name : String) : FPath := ⟨dir, name, FileKind.onnxFile⟩

/-- Python `self.output_dir / f"{model_name}_saved_model"` (resp.
`f"{model_name}_tf"` in the simple script). -/
def savedModelPath (dir name : String) : FPath := ⟨dir, name, FileKind.savedModelDir⟩

/-- Python `self.output_dir / f"{model_name}.tflite"`. -/
def tflitePath (dir name : String) : FPath := ⟨dir, name, FileKind.tfliteFile⟩

/-- Python `os.path.getsize(path) / (1024 * 1024)`: artifact size in MB. -/
def sizeMB (bytes : Nat) : ℚ := (bytes : ℚ) / (1024 * 1024)

/-! ## TFLite converter configuration

`tf.lite.TFLiteConverter` attributes set by the scripts:
`target_spec.supported_types`, `optimizations`,
`target_spec.supported_ops`, `allow_custom_ops`. -/

/-- Python `tf.float16` is the only element of `supported_types` the scripts
ever use. -/
inductive TFType
  | float16
deriving DecidableEq, Repr

/-- Python `tf.lite.Optimize.DEFAULT`. -/
inductive Optimize
  | default
deriving DecidableEq, Repr

/-- Python `tf.lite.OpsSet` values used by the scripts. -/
inductive OpsSet
  | tfliteBuiltins
  | tfliteBuiltinsInt8
deriving DecidableEq, Repr

/-- Mutable converter attributes as the scripts assign them. Fresh
converters start with no explicit assignments (`allow_custom_ops`
defaults to true in TF). -/
structure ConverterConfig where
  supportedTypes : List TFType := []
  optimizations : List Optimize := []
  supportedOps : List OpsSet := []
  allowCustomOps : Bool := true
deriving DecidableEq, Repr

/-- The quantization branch of `pytorch_to_tflite`
(`convert_oemer_to_tflite.py` lines 199–210):
`float16` sets `supported_types` and `optimizations`; `int8` sets
`optimizations` and restricts `supported_ops` to
`TFLITE_BUILTINS_INT8` (with no calibration dataset supplied); any
other value except `"none"` raises
`ValueError(f"Unknown quantization type: {quantization_type}")`. -/
def applyQuantizationBranch (cfg : ConverterConfig) (q : String) :
    Except String ConverterConfig :=
  if q = "float16" then
    Except.ok { cfg with
      supportedTypes := [TFType.float16],
      optimizations := [Optimize.default] }
  else if q = "int8" then
    Except.ok { cfg with
      optimizations := [Optimize.default],
      supportedOps := [OpsSet.tfliteBuiltinsInt8] }
  else if q ≠ "none" then
    Except.error ("Unknown quantization type: " ++ q)
  else
    Except.ok cfg

/-- The unconditional assignments that follow the quantization branch
(lines 213–216): `supported_ops = [TFLITE_BUILTINS]` and
`allow_custom_ops = False`, executed for every policy. -/
def finalizeConfig (cfg : ConverterConfig) : ConverterConfig :=
  { cfg with supportedOps := [OpsSet.tfliteBuiltins], allowCustomOps := false }

/-- The converter configuration in force when `converter.convert()`
runs, as a function of the `quantization_type` string. -/
def configFor (q : String) : Except String ConverterConfig :=
  (applyQuantizationBranch {} q).map finalizeConfig

/-! ## `OemerToTFLiteConverter.pytorch_to_tflite`

Environment of the external steps: PyTorch tracing, `torch.onnx.export`,
`onnx.load`, `onnx_tf.backend.prepare`/`export_graph`, and
`converter.convert()`; plus the byte size and content tag of the data
the environment produces. -/

structure ConvEnv where
  traceOk : Bool
  onnxExportOk : Bool
  onnxLoadOk : Bool
  prepareOk : Bool
  convertOk : Bool
  tfliteBytes : Nat
  tag : Nat
deriving DecidableEq, Repr

/-- All external steps of one `pytorch_to_tflite` call succeed. -/
def ConvEnv.allOk (e : ConvEnv) : Prop :=
  e.traceOk = true ∧ e.onnxExportOk = true ∧ e.onnxLoadOk = true ∧
  e.prepareOk = true ∧ e.convertOk = true

instance (e : ConvEnv) : Decidable e.allOk := by
  unfold ConvEnv.allOk; infer_instance

/-- Python `raise RuntimeError(f"Conversion failed for {model_name}: {e}")`
(line 238). -/
def wrapErr (name msg : String) : String :=
  "Conversion failed for " ++ name ++ ": " ++ msg

/-- Python `OemerToTFLiteConverter.pytorch_to_tflite` (lines 121–238),
step by step:

1. trace the PyTorch model (`torch.jit.trace`);
2. `torch.onnx.export` writes `{name}.onnx` in the output directory;
3. `onnx.load` then `onnx_tf.backend.prepare` / `export_graph` write
   the `{name}_saved_model` directory;
4. the quantization branch configures the converter — an unknown
   policy raises `ValueError` here;
5. the unconditional `supported_ops`/`allow_custom_ops` assignments;
6. `converter.convert()`;
7. the `.tflite` artifact is written (overwriting any prior file);
8. `os.remove` of the ONNX file and `shutil.rmtree` of the SavedModel
   directory — executed only on this success path;
9. the path and size in MB are returned.

Any exception is wrapped as
`RuntimeError(f"Conversion failed for {model_name}: {e}")`; the error
result carries the file system as it stands when the exception
propagates. -/
def pytorch_to_tflite (env : ConvEnv) (dir name q : String)
    (prov : Provenance) (fs : FS) :
    Except (String × FS) (FPath × ℚ × FS) :=
  if env.traceOk = false then
    Except.error (wrapErr name "trace error", fs)
  else if env.onnxExportOk = false then
    Except.error (wrapErr name "onnx export error", fs)
  else
    let fs1 := fsWrite fs (onnxPath dir name) (File.onnx env.tag)
    if env.onnxLoadOk = false then
      Except.error (wrapErr name "onnx load error", fs1)
    else if env.prepareOk = false then
      Except.error (wrapErr name "onnx-tf prepare error", fs1)
    else
      let fs2 := fsWrite fs1 (savedModelPath dir name) (File.savedModel env.tag)
      match applyQuantizationBranch {} q with
      | Except.error e => Except.error (wrapErr name e, fs2)
      | Except.ok cfg =>
        let _cfgAtConvert := finalizeConfig cfg
        if env.convertOk = false then
          Except.error (wrapErr name "convert error", fs2)
        else
          let art : Artifact := ⟨prov, env.tfliteBytes, env.tag⟩
          let fs3 := fsWrite fs2 (tflitePath dir name) (File.tflite art)
          let fs4 := fsRemove fs3 (onnxPath dir name)
          let fs5 := fsRemove fs4 (savedModelPath dir name)
          Except.ok (tflitePath dir name, sizeMB env.tfliteBytes, fs5)

/-! ## `create_mock_tflite_models`: Keras layers and shape propagation

The mock networks of `convert_oemer_simple.py` (lines 180–217) are
built from `tf.keras` layers. Shapes are per-example (the scripts fix
`batch_size=1`): either a `h × w × c` image tensor or a flat vector. -/

/-- A per-example tensor shape. -/
inductive Shape
  | img (h w c : Nat)
  | vec (n : Nat)
deriving DecidableEq, Repr

/-- The Keras layers the mock generator uses. `conv2dSame` is
`Conv2D(filters, kernel, padding='same')`; `maxPool2d` is
`MaxPooling2D(pool)`; `upSampling2d` is `UpSampling2D(factor)`;
`globalAvgPool` is `GlobalAveragePooling2D()`; `dense` is
`Dense(units)`. -/
inductive Layer
  | conv2dSame (filters kernel : Nat)
  | maxPool2d (pool : Nat)
  | upSampling2d (factor : Nat)
  | globalAvgPool
  | dense (units : Nat)
deriving DecidableEq, Repr

/-- One layer's output shape and trainable parameter count, given its
input shape; `none` when the layer cannot accept the shape. Parameter
counts follow Keras: a same-padded convolution has
`kernel² · in_channels · filters` weights plus `filters` biases, a
dense layer `in · units` weights plus `units` biases; pooling and
upsampling layers have none. -/
def stepLayer : Shape → Layer → Option (Shape × Nat)
  | Shape.img h w c, Layer.conv2dSame filters kernel =>
    some (Shape.img h w filters, kernel * kernel * c * filters + filters)
  | Shape.img h w c, Layer.maxPool2d pool =>
    some (Shape.img (h / pool) (w / pool) c, 0)
  | Shape.img h w c, Layer.upSampling2d factor =>
    some (Shape.img (h * factor) (w * factor) c, 0)
  | Shape.img _ _ c, Layer.globalAvgPool => some (Shape.vec c, 0)
  | Shape.vec n, Layer.dense units => some (Shape.vec units, n * units + units)
  | _, _ => Option.none

/-- A sequential Keras model: its `Input` shape and layer stack. -/
structure KerasModel where
  inputShape : Shape
  layers : List Layer
deriving DecidableEq, Repr

/-- Propagate a shape through the layer stack, accumulating the
parameter count. -/
def propagate : Option (Shape × Nat) → List Layer → Option (Shape × Nat)
  | acc, [] => acc
  | Option.none, _ => Option.none
  | some (s, p), l :: ls =>
    match stepLayer s l with
    | Option.none => Option.none
    | some (s', p') => propagate (some (s', p + p')) ls

/-- The model's output tensor shape (per example). -/
def KerasModel.outputShape (m : KerasModel) : Option Shape :=
  (propagate (some (m.inputShape, 0)) m.layers).map Prod.fst

/-- The model's total trainable parameter count. -/
def KerasModel.paramCount (m : KerasModel) : Nat :=
  match propagate (some (m.inputShape, 0)) m.layers with
  | Option.none => 0
  | some (_, p) => p

/-- The mock staff detector (lines 181–187):
`Input(shape=(512, 512, 3))`, `Conv2D(32, 3, same, relu)`,
`MaxPooling2D(4)`, `Conv2D(64, 3, same, relu)`, `UpSampling2D(4)`,
`Conv2D(1, 1, same, sigmoid)`. -/
def staffMockModel : KerasModel :=
  ⟨Shape.img 512 512 3,
   [Layer.conv2dSame 32 3, Layer.maxPool2d 4, Layer.conv2dSame 64 3,
    Layer.upSampling2d 4, Layer.conv2dSame 1 1]⟩

/-- The mock symbol recognizer (lines 202–208):
`Input(shape=(128, 128, 3))`, `Conv2D(32, 3, same, relu)`,
`MaxPooling2D(2)`, `Conv2D(64, 3, same, relu)`,
`GlobalAveragePooling2D()`, `Dense(128, softmax)`. -/
def symbolMockModel : KerasModel :=
  ⟨Shape.img 128 128 3,
   [Layer.conv2dSame 32 3, Layer.maxPool2d 2, Layer.conv2dSame 64 3,
    Layer.globalAvgPool, Layer.dense 128]⟩

/-- The converter configuration the mock generator (and the simple
script's real chain) uses: `optimizations = [Optimize.DEFAULT]` and
`target_spec.supported_types = [tf.float16]` — the `float16`
quantization policy. -/
def mockConverterConfig : ConverterConfig :=
  { optimizations := [Optimize.default], supportedTypes := [TFType.float16] }

/-- Byte size of the serialized `.tflite` flatbuffer for a Keras model
under `float16` quantization. Modelled property of the external TFLite
serializer: weight buffers are fixed-width (two bytes per parameter at
half precision), so the file size is a function of the architecture
alone — weight *values* (random initialization) change the bytes
stored, never how many. The additive constant stands for the
schema/metadata overhead. -/
def tfliteByteSize (m : KerasModel) : Nat := 2 * m.paramCount + 1024

/-! ## `convert_oemer_simple.py` -/

/-- Environment for one run of the simple script:
flags for the oemer import and the two checkpoint loads (first `try`
block, lines 59–83); flags for the ONNX exports, the ONNX→TF bridging
and the TFLite conversion of each model (second `try` block, lines
86–165); the byte sizes of the real artifacts; a content tag; and the
flags/seed of the mock path. -/
structure MockEnv where
  staffConvertOk : Bool
  symbolConvertOk : Bool
  seed : Nat
deriving DecidableEq, Repr

structure SimpleEnv where
  oemerImportOk : Bool
  staffLoadOk : Bool
  clefLoadOk : Bool
  staffOnnxOk : Bool
  symbolOnnxOk : Bool
  staffBridgeOk : Bool
  staffConvertOk : Bool
  symbolBridgeOk : Bool
  symbolConvertOk : Bool
  staffBytes : Nat
  symbolBytes : Nat
  tag : Nat
  mock : MockEnv
deriving DecidableEq, Repr

/-- The simple script works in the current directory
(`os.chdir(output_dir)` then relative file names): paths have an empty
directory component. -/
def cwdPath (name : String) (k : FileKind) : FPath := ⟨"", name, k⟩

/-- Python `create_mock_tflite_models` (lines 168–227): builds
`staffMockModel`, converts it with `mockConverterConfig`, writes
`staff_detector.tflite`; then builds `symbolMockModel`, converts,
writes `symbol_recognizer.tflite`; returns `True`. The TFLite
conversion calls can themselves raise (environment flags); such an
exception escapes this function — it has no handler. Artifact byte
sizes come from `tfliteByteSize` (architecture-determined); the
content tag carries the run's weight-initialization seed. -/
def create_mock_tflite_models (env : MockEnv) (fs : FS) :
    Except (String × FS) (Bool × FS) :=
  if env.staffConvertOk = false then
    Except.error ("mock staff tflite conversion error", fs)
  else
    let staffArt : Artifact :=
      ⟨Provenance.mock, tfliteByteSize staffMockModel, env.seed⟩
    let fs1 := fsWrite fs (cwdPath "staff_detector" FileKind.tfliteFile)
      (File.tflite staffArt)
    if env.symbolConvertOk = false then
      Except.error ("mock symbol tflite conversion error", fs1)
    else
      let symbolArt : Artifact :=
        ⟨Provenance.mock, tfliteByteSize symbolMockModel, env.seed⟩
      let fs2 := fsWrite fs1 (cwdPath "symbol_recognizer" FileKind.tfliteFile)
        (File.tflite symbolArt)
      Except.ok (true, fs2)

/-- Python `convert_models` (lines 47–165). First `try`: import oemer and
load both checkpoints; any exception falls back to
`create_mock_tflite_models`. Second `try`: export both models to ONNX
(writing `staff_detector.onnx`, `symbol_recognizer.onnx`), bridge the
staff ONNX graph to a SavedModel (`staff_detector_tf`), convert and
write `staff_detector.tflite` with the `float16` policy, then the same
for the symbol model; any exception falls back to
`create_mock_tflite_models` on the file system as it stands. No
temporary file is ever removed. Returns `True` on the success path. -/
def convert_models (env : SimpleEnv) (fs : FS) :
    Except (String × FS) (Bool × FS) :=
  if (env.oemerImportOk && env.staffLoadOk && env.clefLoadOk) = false then
    create_mock_tflite_models env.mock fs
  else if env.staffOnnxOk = false then
    create_mock_tflite_models env.mock fs
  else
    let fs1 := fsWrite fs (cwdPath "staff_detector" FileKind.onnxFile)
      (File.onnx env.tag)
    if env.symbolOnnxOk = false then
      create_mock_tflite_models env.mock fs1
    else
      let fs2 := fsWrite fs1 (cwdPath "symbol_recognizer" FileKind.onnxFile)
        (File.onnx env.tag)
      if env.staffBridgeOk = false then
        create_mock_tflite_models env.mock fs2
      else
        let fs3 := fsWrite fs2 (cwdPath "staff_detector" FileKind.savedModelDir)
          (File.savedModel env.tag)
        if env.staffConvertOk = false then
          create_mock_tflite_models env.mock fs3
        else
          let staffArt : Artifact := ⟨Provenance.real, env.staffBytes, env.tag⟩
          let fs4 := fsWrite fs3 (cwdPath "staff_detector" FileKind.tfliteFile)
            (File.tflite staffArt)
          if env.symbolBridgeOk = false then
            create_mock_tflite_models env.mock fs4
          else
            let fs5 := fsWrite fs4
              (cwdPath "symbol_recognizer" FileKind.savedModelDir)
              (File.savedModel env.tag)
            if env.symbolConvertOk = false then
              create_mock_tflite_models env.mock fs5
            else
              let symbolArt : Artifact :=
                ⟨Provenance.real, env.symbolBytes, env.tag⟩
              let fs6 := fsWrite fs5
                (cwdPath "symbol_recognizer" FileKind.tfliteFile)
                (File.tflite symbolArt)
              Except.ok (true, fs6)

/-- The tail of the simple script's `main` (lines 271–294): run
`create_mock_tflite_models` when `--mock` was given, else
`convert_models`, and `sys.exit(0 if success else 1)`. An exception
escaping the conversion function propagates (the `Except.error`
case). -/
def simpleMain (env : SimpleEnv) (mockFlag : Bool) (fs : FS) :
    Except (String × FS) Nat :=
  let r := if mockFlag then create_mock_tflite_models env.mock fs
           else convert_models env fs
  r.map fun p => if p.1 then 0 else 1

/-! ## Size-budget validation

Both scripts compute `total = size1 + size2` (MB) and compare it with
the fixed 50 MB budget: `convert_oemer_to_tflite.py` prints the
overrun warning when `total_size > 50` (line 285) and returns
`total_size <= 50` (line 304); `convert_oemer_simple.py` prints
success when `total <= 50` (line 155). -/

/-- Python `total_size = staff_size + symbol_size`. -/
def totalSizeMB (s1 s2 : ℚ) : ℚ := s1 + s2

/-- The boolean `total_size <= 50` both scripts compare against the
50 MB budget (`withinBudget`). -/
def budgetSuccess (s1 s2 : ℚ) : Bool := decide (totalSizeMB s1 s2 ≤ 50)

/-- The condition guarding the overrun warning: `total_size > 50`. -/
def budgetWarning (s1 s2 : ℚ) : Bool := decide (totalSizeMB s1 s2 > 50)

/-! ## `OemerToTFLiteConverter.convert_and_validate` and `main` -/

/-- Environment for one run of `convert_and_validate`: the two
checkpoint loads plus one `ConvEnv` per `pytorch_to_tflite` call. -/
structure PipelineEnv where
  staffLoadOk : Bool
  symbolLoadOk : Bool
  staffConv : ConvEnv
  symbolConv : ConvEnv
deriving DecidableEq, Repr

/-- Python `convert_and_validate` (lines 240–310): load both models
(`RuntimeError` on failure), convert each with
`pytorch_to_tflite(..., quantization_type="float16")`, sum the sizes,
print the warning or success line, and `return total_size <= 50`
(line 304). The `except` clause (lines 306–310) catches any exception
and returns `False` — there is no mock fallback in this script. -/
def convert_and_validate (env : PipelineEnv) (dir : String) (fs : FS) :
    Bool × FS :=
  if env.staffLoadOk = false then (false, fs)
  else if env.symbolLoadOk = false then (false, fs)
  else
    match pytorch_to_tflite env.staffConv dir "staff_detector" "float16"
      Provenance.real fs with
    | Except.error (_, fs') => (false, fs')
    | Except.ok (_, staffSize, fs1) =>
      match pytorch_to_tflite env.symbolConv dir "symbol_recognizer" "float16"
        Provenance.real fs1 with
      | Except.error (_, fs') => (false, fs')
      | Except.ok (_, symbolSize, fs2) =>
        (budgetSuccess staffSize symbolSize, fs2)

/-- The exit code of `convert_oemer_to_tflite.py`'s `main`
(lines 343–357): `sys.exit(0 if success else 1)` on
`convert_and_validate`'s return value. -/
def tfliteMainExit (env : PipelineEnv) (dir : String) (fs : FS) : Nat :=
  if (convert_and_validate env dir fs).1 then 0 else 1

/-! ## Helper accessors used by the theorems -/

/-- The provenance of the `.tflite` artifact at a path, if one is
there. -/
def provAt (fs : FS) (p : FPath) : Option Provenance :=
  match fs p with
  | some (File.tflite a) => some a.prov
  | _ => Option.none

/-- The byte size of the `.tflite` artifact at a path, if one is
there. -/
def bytesAt (fs : FS) (p : FPath) : Option Nat :=
  match fs p with
  | some (File.tflite a) => some a.bytes
  | _ => Option.none

/-- The final file system of a simple-script run, whether it returned
or raised. -/
def runFS (r : Except (String × FS) (Bool × FS)) : FS :=
  match r with
  | Except.error (_, fs) => fs
  | Except.ok (_, fs) => fs

/-- All stages of the simple script's real chain succeed. -/
def SimpleEnv.realChainOk (e : SimpleEnv) : Prop :=
  e.oemerImportOk = true ∧ e.staffLoadOk = true ∧ e.clefLoadOk = true ∧
  e.staffOnnxOk = true ∧ e.symbolOnnxOk = true ∧
  e.staffBridgeOk = true ∧ e.staffConvertOk = true ∧
  e.symbolBridgeOk = true ∧ e.symbolConvertOk = true

instance (e : SimpleEnv) : Decidable e.realChainOk := by
  unfold SimpleEnv.realChainOk; infer_instance

/-- Both mock conversions succeed. -/
def MockEnv.allOk (e : MockEnv) : Prop :=
  e.staffConvertOk = true ∧ e.symbolConvertOk = true

instance (e : MockEnv) : Decidable e.allOk := by
  unfold MockEnv.allOk; infer_instance

/-- Did a `pytorch_to_tflite` call return normally? -/
def convIsOk : Except (String × FS) (FPath × ℚ × FS) → Bool
  | Except.ok _ => true
  | Except.error _ => false

/-- The wrapped `RuntimeError` message of a failed `pytorch_to_tflite`
call. -/
def convErr : Except (String × FS) (FPath × ℚ × FS) → Option String
  | Except.error (e, _) => some e
  | Except.ok _ => Option.none

/-- The output path a successful `pytorch_to_tflite` call returned. -/
def convPath : Except (String × FS) (FPath × ℚ × FS) → Option FPath
  | Except.ok (p, _, _) => some p
  | Except.error _ => Option.none

/-- The file system after a `pytorch_to_tflite` call, whether it
returned or raised. -/
def convFS : Except (String × FS) (FPath × ℚ × FS) → FS
  | Except.error (_, fs) => fs
  | Except.ok (_, _, fs) => fs

/-- The boolean a simple-script conversion function returned, if it
returned at all. -/
def runOk : Except (String × FS) (Bool × FS) → Option Bool
  | Except.ok (b, _) => some b
  | Except.error _ => Option.none

/-! ## Shared lemmas about the conversion paths -/

/-- With both mock conversions succeeding,
`create_mock_tflite_models` returns `True` and leaves mock artifacts
at both artifact paths. -/
lemma create_mock_allOk (m : MockEnv) (fs : FS) (hm : m.allOk) :
    runOk (create_mock_tflite_models m fs) = some true ∧
    provAt (runFS (create_mock_tflite_models m fs))
      (cwdPath "staff_detector" FileKind.tfliteFile) = some Provenance.mock ∧
    provAt (runFS (create_mock_tflite_models m fs))
      (cwdPath "symbol_recognizer" FileKind.tfliteFile) = some Provenance.mock := by
  obtain ⟨h1, h2⟩ := hm
  simp [create_mock_tflite_models, h1, h2, runOk, runFS, provAt, fsWrite, cwdPath]

/-- Python `create_mock_tflite_models` only ever returns `True`. -/
lemma create_mock_ok_true (m : MockEnv) (fs : FS) (b : Bool) (fs' : FS)
    (h : create_mock_tflite_models m fs = Except.ok (b, fs')) : b = true := by
  unfold create_mock_tflite_models at h
  split_ifs at h with h1 h2
  all_goals
    first
      | exact Except.noConfusion h
      | (simp only [Except.ok.injEq, Prod.mk.injEq] at h; exact h.1.symm)

/-- Any failure on the real chain of `convert_models` routes the run
into `create_mock_tflite_models` (on the file system as written so
far). -/
lemma convert_models_fallback (env : SimpleEnv) (fs : FS)
    (h : ¬ env.realChainOk) :
    ∃ fs0, convert_models env fs = create_mock_tflite_models env.mock fs0 := by
  unfold convert_models
  split_ifs with h1 h2 h3 h4 h5 h6 h7
  all_goals
    first
      | exact ⟨_, rfl⟩
      | (exfalso
         apply h
         simp only [Bool.not_eq_false, Bool.and_eq_true] at h1 h2 h3 h4 h5 h6 h7
         exact ⟨h1.1.1, h1.1.2, h1.2, h2, h3, h4, h5, h6, h7⟩)

/-- Python `convert_models` only ever returns `True`. -/
lemma convert_models_ok_true (env : SimpleEnv) (fs : FS) (b : Bool) (fs' : FS)
    (h : convert_models env fs = Except.ok (b, fs')) : b = true := by
  unfold convert_models at h
  split_ifs at h with h1 h2 h3 h4 h5 h6 h7
  all_goals
    first
      | exact create_mock_ok_true env.mock _ b fs' h
      | (simp only [Except.ok.injEq, Prod.mk.injEq] at h; exact h.1.symm)

/-- When every stage of the real chain succeeds, `convert_models`
returns `True` with the six files it wrote — the two ONNX exports, the
two SavedModel directories and the two real `.tflite` artifacts — all
still present. -/
lemma convert_models_success (env : SimpleEnv) (fs : FS)
    (h : env.realChainOk) :
    convert_models env fs =
      Except.ok (true,
        fsWrite (fsWrite (fsWrite (fsWrite (fsWrite (fsWrite fs
          (cwdPath "staff_detector" FileKind.onnxFile) (File.onnx env.tag))
          (cwdPath "symbol_recognizer" FileKind.onnxFile) (File.onnx env.tag))
          (cwdPath "staff_detector" FileKind.savedModelDir)
            (File.savedModel env.tag))
          (cwdPath "staff_detector" FileKind.tfliteFile)
            (File.tflite ⟨Provenance.real, env.staffBytes, env.tag⟩))
          (cwdPath "symbol_recognizer" FileKind.savedModelDir)
            (File.savedModel env.tag))
          (cwdPath "symbol_recognizer" FileKind.tfliteFile)
            (File.tflite ⟨Provenance.real, env.symbolBytes, env.tag⟩)) := by
  obtain ⟨e1, e2, e3, e4, e5, e6, e7, e8, e9⟩ := h
  simp [convert_models, e1, e2, e3, e4, e5, e6, e7, e8, e9]

/-- When every external step succeeds, `pytorch_to_tflite` returns the
path derived from the model name and the size in MB, having written
the artifact and removed both temporaries. -/
lemma pytorch_to_tflite_ok (env : ConvEnv) (dir name q : String)
    (prov : Provenance) (fs : FS) (cfg : ConverterConfig) (h : env.allOk)
    (hq : applyQuantizationBranch {} q = Except.ok cfg) :
    pytorch_to_tflite env dir name q prov fs =
      Except.ok (tflitePath dir name, sizeMB env.tfliteBytes,
        fsRemove (fsRemove
          (fsWrite
            (fsWrite (fsWrite fs (onnxPath dir name) (File.onnx env.tag))
              (savedModelPath dir name) (File.savedModel env.tag))
            (tflitePath dir name)
            (File.tflite ⟨prov, env.tfliteBytes, env.tag⟩))
          (onnxPath dir name)) (savedModelPath dir name)) := by
  obtain ⟨h1, h2, h3, h4, h5⟩ := h
  simp [pytorch_to_tflite, h1, h2, h3, h4, h5, hq]

/-! ## Theorems -/

/-- C4. The size validation of both scripts reports
`withinBudget = true` exactly when the sum of the artifact sizes is at
most 50 MB; the overrun warning fires exactly otherwise; and the
boundary case of a sum of exactly 50 MB (25 + 25) yields
`withinBudget = true`. -/
theorem budget_withinBudget_iff (s1 s2 : ℚ) :
    (budgetSuccess s1 s2 = true ↔ s1 + s2 ≤ 50) ∧
    budgetWarning s1 s2 = !budgetSuccess s1 s2 ∧
    budgetSuccess 25 25 = true := by
  refine ⟨?_, ?_, by norm_num [budgetSuccess, totalSizeMB]⟩
  · simp [budgetSuccess, totalSizeMB]
  · simp [budgetWarning, budgetSuccess, totalSizeMB, ← decide_not, not_le]

/-- C6. The mock staff detector is built on the requested
512×512×3 input and produces a 512×512×1 heatmap; the mock symbol
recognizer is built on the requested 128×128×3 input and produces a
128-way logit vector; both are converted with the `float16`
quantization policy (`supported_types = [tf.float16]`,
`optimizations = [Optimize.DEFAULT]`), matching `configFor "float16"`
up to the converter-level op settings. -/
theorem mock_shapes_match_requested :
    staffMockModel.inputShape = Shape.img 512 512 3 ∧
    staffMockModel.outputShape = some (Shape.img 512 512 1) ∧
    symbolMockModel.inputShape = Shape.img 128 128 3 ∧
    symbolMockModel.outputShape = some (Shape.vec 128) ∧
    mockConverterConfig.supportedTypes = [TFType.float16] ∧
    mockConverterConfig.optimizations = [Optimize.default] ∧
    applyQuantizationBranch {} "float16" =
      Except.ok { supportedTypes := mockConverterConfig.supportedTypes,
                  optimizations := mockConverterConfig.optimizations } := by
  exact ⟨rfl, rfl, rfl, rfl, rfl, rfl, rfl⟩

/-- C7. Mock generation is deterministic in artifact size: two
runs of `create_mock_tflite_models`, with different
weight-initialization seeds and starting from different file systems,
produce `.tflite` artifacts of identical byte size for each of the two
model names (the size is a function of the fixed architecture
alone). -/
theorem mock_sizes_idempotent (seed1 seed2 : Nat) (fs1 fs2 : FS) :
    bytesAt (runFS (create_mock_tflite_models ⟨true, true, seed1⟩ fs1))
        (cwdPath "staff_detector" FileKind.tfliteFile) =
      bytesAt (runFS (create_mock_tflite_models ⟨true, true, seed2⟩ fs2))
        (cwdPath "staff_detector" FileKind.tfliteFile) ∧
    bytesAt (runFS (create_mock_tflite_models ⟨true, true, seed1⟩ fs1))
        (cwdPath "symbol_recognizer" FileKind.tfliteFile) =
      bytesAt (runFS (create_mock_tflite_models ⟨true, true, seed2⟩ fs2))
        (cwdPath "symbol_recognizer" FileKind.tfliteFile) := by
  constructor <;> rfl

/-- C9. Both conversion entry points of the simple script return
`True` on every return path, so whenever the selected conversion
function returns without an escaping exception, `main` exits with code
0 — the post-conversion failure exit (code 1) is unreachable. -/
theorem simple_success_exit_zero (env : SimpleEnv) (mockFlag : Bool)
    (fs : FS) (n : Nat) (h : simpleMain env mockFlag fs = Except.ok n) :
    n = 0 := by
  unfold simpleMain at h
  rcases hr : (if mockFlag then create_mock_tflite_models env.mock fs
               else convert_models env fs) with e | p
  · rw [hr] at h
    exact Except.noConfusion h
  · rw [hr] at h
    obtain ⟨b, fs'⟩ := p
    have hb : b = true := by
      cases mockFlag
      · simp only [Bool.false_eq_true, if_false] at hr
        exact convert_models_ok_true env fs b fs' hr
      · simp only [if_true] at hr
        exact create_mock_ok_true env.mock fs b fs' hr
    subst hb
    simp only [Except.map, if_true, Except.ok.injEq] at h
    exact h.symm

/-- Witness for `simple_success_exit_zero`: a fully successful real
run returns `Except.ok 0`. -/
theorem simple_success_exit_zero_witness :
    simpleMain
        ⟨true, true, true, true, true, true, true, true, true,
         5242880, 2097152, 0, ⟨true, true, 0⟩⟩ false fsEmpty =
      Except.ok 0 ∧ (0 : Nat) = 0 :=
  ⟨rfl,
   simple_success_exit_zero
     ⟨true, true, true, true, true, true, true, true, true,
      5242880, 2097152, 0, ⟨true, true, 0⟩⟩ false fsEmpty 0 rfl⟩

/-- C2, counterexample. A run in which the staff job's load,
bridge and convert stages all succeed (its real artifact is written)
but the symbol job's bridging then fails ends with the staff artifact
overwritten by a mock one: the fallback regenerates *both* models, so
a fully successful job does not retain its real-provenance
artifact. -/
theorem staff_real_artifact_lost_counterexample :
    runOk (convert_models
        ⟨true, true, true, true, true, true, true, false, true,
         7340032, 2097152, 3, ⟨true, true, 9⟩⟩ fsEmpty) = some true ∧
    provAt (runFS (convert_models
        ⟨true, true, true, true, true, true, true, false, true,
         7340032, 2097152, 3, ⟨true, true, 9⟩⟩ fsEmpty))
      (cwdPath "staff_detector" FileKind.tfliteFile) =
        some Provenance.mock := by
  exact ⟨rfl, rfl⟩

/-- C2, amended. Fallback is invoked exactly when some stage of
the real chain fails, but it regenerates *both* artifacts as mocks:
only a run in which every stage of both jobs succeeds retains
real-provenance artifacts, and any load/bridge/convert failure leaves
both jobs with mock-provenance artifacts (assuming the mock chain
itself succeeds). -/
theorem fallback_exactly_on_failure (env : SimpleEnv) (fs : FS)
    (hm : env.mock.allOk) :
    (env.realChainOk →
      provAt (runFS (convert_models env fs))
        (cwdPath "staff_detector" FileKind.tfliteFile) =
          some Provenance.real ∧
      provAt (runFS (convert_models env fs))
        (cwdPath "symbol_recognizer" FileKind.tfliteFile) =
          some Provenance.real) ∧
    (¬ env.realChainOk →
      provAt (runFS (convert_models env fs))
        (cwdPath "staff_detector" FileKind.tfliteFile) =
          some Provenance.mock ∧
      provAt (runFS (convert_models env fs))
        (cwdPath "symbol_recognizer" FileKind.tfliteFile) =
          some Provenance.mock) := by
  constructor
  · intro h
    rw [convert_models_success env fs h]
    simp [runFS, provAt, fsWrite, cwdPath]
  · intro h
    obtain ⟨fs0, heq⟩ := convert_models_fallback env fs h
    rw [heq]
    exact ⟨(create_mock_allOk env.mock fs0 hm).2.1,
           (create_mock_allOk env.mock fs0 hm).2.2⟩

/-- Witness for `fallback_exactly_on_failure`: on a fully successful
run both artifacts are real; the same environment with a failing
symbol bridge is covered by the counterexample. -/
theorem fallback_exactly_on_failure_witness :
    provAt (runFS (convert_models
        ⟨true, true, true, true, true, true, true, true, true,
         7340032, 2097152, 3, ⟨true, true, 9⟩⟩ fsEmpty))
      (cwdPath "staff_detector" FileKind.tfliteFile) =
        some Provenance.real ∧
    provAt (runFS (convert_models
        ⟨true, true, true, true, true, true, true, true, true,
         7340032, 2097152, 3, ⟨true, true, 9⟩⟩ fsEmpty))
      (cwdPath "symbol_recognizer" FileKind.tfliteFile) =
        some Provenance.real :=
  (fallback_exactly_on_failure
    ⟨true, true, true, true, true, true, true, true, true,
     7340032, 2097152, 3, ⟨true, true, 9⟩⟩ fsEmpty
    (by exact ⟨rfl, rfl⟩)).1
    ⟨rfl, rfl, rfl, rfl, rfl, rfl, rfl, rfl, rfl⟩

/-- C1, counterexample. Invoking the quantizing conversion step
with the `int8` policy and no calibration dataset does not fail:
with every external step succeeding, `pytorch_to_tflite` returns
normally and produces an artifact, and the configuration it converts
with has had the INT8 op restriction silently overwritten by
`TFLITE_BUILTINS` — a silent degradation, not an explicit
rejection. -/
theorem int8_no_rejection_counterexample :
    convIsOk (pytorch_to_tflite ⟨true, true, true, true, true, 1048576, 0⟩
        "out" "staff_detector" "int8" Provenance.real fsEmpty) = true ∧
    provAt (convFS (pytorch_to_tflite ⟨true, true, true, true, true, 1048576, 0⟩
        "out" "staff_detector" "int8" Provenance.real fsEmpty))
      (tflitePath "out" "staff_detector") = some Provenance.real ∧
    configFor "int8" =
      Except.ok { optimizations := [Optimize.default],
                  supportedOps := [OpsSet.tfliteBuiltins],
                  allowCustomOps := false } := by
  exact ⟨rfl, rfl, rfl⟩

/-- C1, amended. The `int8` branch raises no error and supplies no
calibration data: it restricts `supported_ops` to
`TFLITE_BUILTINS_INT8`, but the unconditional assignment that follows
overwrites that restriction with `TFLITE_BUILTINS`, and the conversion
proceeds to produce an artifact — the policy is silently degraded,
never rejected with `UnsupportedQuantization` (no such failure exists
in the code). -/
theorem int8_silently_degraded (env : ConvEnv) (dir name : String)
    (fs : FS) (h : env.allOk) :
    applyQuantizationBranch {} "int8" =
      Except.ok { optimizations := [Optimize.default],
                  supportedOps := [OpsSet.tfliteBuiltinsInt8] } ∧
    configFor "int8" =
      Except.ok { optimizations := [Optimize.default],
                  supportedOps := [OpsSet.tfliteBuiltins],
                  allowCustomOps := false } ∧
    convIsOk (pytorch_to_tflite env dir name "int8" Provenance.real fs) =
      true ∧
    provAt (convFS (pytorch_to_tflite env dir name "int8" Provenance.real fs))
      (tflitePath dir name) = some Provenance.real := by
  refine ⟨rfl, rfl, ?_, ?_⟩
  · rw [pytorch_to_tflite_ok env dir name "int8" Provenance.real fs _ h rfl]
    rfl
  · rw [pytorch_to_tflite_ok env dir name "int8" Provenance.real fs _ h rfl]
    simp [convFS, provAt, fsRemove, fsWrite, tflitePath, onnxPath,
      savedModelPath, FPath.mk.injEq]

/-- Witness for `int8_silently_degraded` at a concrete all-successful
environment. -/
theorem int8_silently_degraded_witness :
    applyQuantizationBranch {} "int8" =
      Except.ok { optimizations := [Optimize.default],
                  supportedOps := [OpsSet.tfliteBuiltinsInt8] } ∧
    configFor "int8" =
      Except.ok { optimizations := [Optimize.default],
                  supportedOps := [OpsSet.tfliteBuiltins],
                  allowCustomOps := false } ∧
    convIsOk (pytorch_to_tflite ⟨true, true, true, true, true, 2048, 1⟩
        "out" "m" "int8" Provenance.real fsEmpty) = true ∧
    provAt (convFS (pytorch_to_tflite ⟨true, true, true, true, true, 2048, 1⟩
        "out" "m" "int8" Provenance.real fsEmpty))
      (tflitePath "out" "m") = some Provenance.real :=
  int8_silently_degraded ⟨true, true, true, true, true, 2048, 1⟩
    "out" "m" fsEmpty ⟨rfl, rfl, rfl, rfl, rfl⟩

/-- C10. For any `quantization_type` outside
`{"none", "float16", "int8"}`, the conversion step raises
`ValueError(f"Unknown quantization type: ...")`, surfaced as
`RuntimeError(f"Conversion failed for {model_name}: ...")`, and no
`.tflite` artifact is written. -/
theorem unknown_quantization_rejected (env : ConvEnv)
    (dir name q : String) (fs : FS) (h : env.allOk)
    (hq1 : q ≠ "none") (hq2 : q ≠ "float16") (hq3 : q ≠ "int8") :
    convErr (pytorch_to_tflite env dir name q Provenance.real fs) =
      some (wrapErr name ("Unknown quantization type: " ++ q)) ∧
    convFS (pytorch_to_tflite env dir name q Provenance.real fs)
        (tflitePath dir name) =
      fs (tflitePath dir name) := by
  obtain ⟨h1, h2, h3, h4, h5⟩ := h
  constructor
  · simp [pytorch_to_tflite, applyQuantizationBranch, h1, h2, h3, h4,
      hq1, hq2, hq3, convErr]
  · simp [pytorch_to_tflite, applyQuantizationBranch, h1, h2, h3, h4,
      hq1, hq2, hq3, convFS, fsWrite, tflitePath, onnxPath,
      savedModelPath, FPath.mk.injEq]

/-- Witness for `unknown_quantization_rejected` at the concrete policy
`"int4"`. -/
theorem unknown_quantization_rejected_witness :
    convErr (pytorch_to_tflite ⟨true, true, true, true, true, 0, 0⟩
        "out" "m" "int4" Provenance.real fsEmpty) =
      some (wrapErr "m" ("Unknown quantization type: " ++ "int4")) ∧
    convFS (pytorch_to_tflite ⟨true, true, true, true, true, 0, 0⟩
        "out" "m" "int4" Provenance.real fsEmpty)
        (tflitePath "out" "m") =
      fsEmpty (tflitePath "out" "m") :=
  unknown_quantization_rejected ⟨true, true, true, true, true, 0, 0⟩
    "out" "m" "int4" fsEmpty ⟨rfl, rfl, rfl, rfl, rfl⟩
    (by decide) (by decide) (by decide)

/-- C8. The quantizing conversion step writes its artifact to the
deterministic path derived from the model name
(`{output_dir}/{model_name}.tflite`), and an artifact already present
at that path is overwritten rather than preserved or causing an
error; likewise the mock generator overwrites whatever is at its
fixed artifact path. -/
theorem artifact_path_deterministic_overwrite (env : ConvEnv)
    (dir name : String) (fs : FS) (prior : File) (m : MockEnv)
    (fs2 : FS) (prior2 : File) (h : env.allOk) (hm : m.allOk) :
    convPath (pytorch_to_tflite env dir name "float16" Provenance.real
        (fsWrite fs (tflitePath dir name) prior)) =
      some (tflitePath dir name) ∧
    convFS (pytorch_to_tflite env dir name "float16" Provenance.real
        (fsWrite fs (tflitePath dir name) prior))
        (tflitePath dir name) =
      some (File.tflite ⟨Provenance.real, env.tfliteBytes, env.tag⟩) ∧
    provAt (runFS (create_mock_tflite_models m
        (fsWrite fs2 (cwdPath "staff_detector" FileKind.tfliteFile) prior2)))
      (cwdPath "staff_detector" FileKind.tfliteFile) =
        some Provenance.mock := by
  refine ⟨?_, ?_,
    (create_mock_allOk m
      (fsWrite fs2 (cwdPath "staff_detector" FileKind.tfliteFile) prior2)
      hm).2.1⟩
  · rw [pytorch_to_tflite_ok env dir name "float16" Provenance.real
      (fsWrite fs (tflitePath dir name) prior) _ h rfl]
    rfl
  · rw [pytorch_to_tflite_ok env dir name "float16" Provenance.real
      (fsWrite fs (tflitePath dir name) prior) _ h rfl]
    simp [convFS, fsRemove, fsWrite, tflitePath, onnxPath,
      savedModelPath, FPath.mk.injEq]

/-- Witness for `artifact_path_deterministic_overwrite`: an existing
mock artifact at the target path is replaced by the new real one. -/
theorem artifact_path_deterministic_overwrite_witness :
    convPath (pytorch_to_tflite ⟨true, true, true, true, true, 4096, 2⟩
        "out" "staff_detector" "float16" Provenance.real
        (fsWrite fsEmpty (tflitePath "out" "staff_detector")
          (File.tflite ⟨Provenance.mock, 77, 0⟩))) =
      some (tflitePath "out" "staff_detector") ∧
    convFS (pytorch_to_tflite ⟨true, true, true, true, true, 4096, 2⟩
        "out" "staff_detector" "float16" Provenance.real
        (fsWrite fsEmpty (tflitePath "out" "staff_detector")
          (File.tflite ⟨Provenance.mock, 77, 0⟩)))
        (tflitePath "out" "staff_detector") =
      some (File.tflite ⟨Provenance.real, 4096, 2⟩) ∧
    provAt (runFS (create_mock_tflite_models ⟨true, true, 5⟩
        (fsWrite fsEmpty (cwdPath "staff_detector" FileKind.tfliteFile)
          (File.tflite ⟨Provenance.real, 88, 1⟩))))
      (cwdPath "staff_detector" FileKind.tfliteFile) =
        some Provenance.mock :=
  artifact_path_deterministic_overwrite
    ⟨true, true, true, true, true, 4096, 2⟩ "out" "staff_detector"
    fsEmpty (File.tflite ⟨Provenance.mock, 77, 0⟩) ⟨true, true, 5⟩
    fsEmpty (File.tflite ⟨Provenance.real, 88, 1⟩)
    ⟨rfl, rfl, rfl, rfl, rfl⟩ ⟨rfl, rfl⟩

/-- C5, counterexample. When `converter.convert()` fails, the
conversion step propagates its error with the ONNX interchange file
and the intermediate SavedModel directory still present: the cleanup
runs only after a successful conversion, not on every exit path. -/
theorem temporaries_left_on_failure_counterexample :
    convIsOk (pytorch_to_tflite ⟨true, true, true, true, false, 0, 0⟩
        "out" "staff_detector" "float16" Provenance.real fsEmpty) = false ∧
    convFS (pytorch_to_tflite ⟨true, true, true, true, false, 0, 0⟩
        "out" "staff_detector" "float16" Provenance.real fsEmpty)
      (onnxPath "out" "staff_detector") = some (File.onnx 0) ∧
    convFS (pytorch_to_tflite ⟨true, true, true, true, false, 0, 0⟩
        "out" "staff_detector" "float16" Provenance.real fsEmpty)
      (savedModelPath "out" "staff_detector") = some (File.savedModel 0) := by
  exact ⟨rfl, rfl, rfl⟩

/-- C5, amended. Temporary intermediates are removed only on the
success path of `pytorch_to_tflite` (on failure they persist, per the
counterexample); and `convert_oemer_simple.py` never removes them at
all — even a fully successful run leaves its ONNX files and SavedModel
directories behind. -/
theorem cleanup_only_on_success (env : ConvEnv) (dir name : String)
    (fs : FS) (senv : SimpleEnv) (fs0 : FS) (h : env.allOk)
    (hs : senv.realChainOk) :
    convFS (pytorch_to_tflite env dir name "float16" Provenance.real fs)
      (onnxPath dir name) = Option.none ∧
    convFS (pytorch_to_tflite env dir name "float16" Provenance.real fs)
      (savedModelPath dir name) = Option.none ∧
    runFS (convert_models senv fs0)
      (cwdPath "staff_detector" FileKind.onnxFile) =
        some (File.onnx senv.tag) ∧
    runFS (convert_models senv fs0)
      (cwdPath "staff_detector" FileKind.savedModelDir) =
        some (File.savedModel senv.tag) := by
  refine ⟨?_, ?_, ?_, ?_⟩
  · rw [pytorch_to_tflite_ok env dir name "float16" Provenance.real fs _ h rfl]
    simp [convFS, fsRemove, onnxPath, savedModelPath, FPath.mk.injEq]
  · rw [pytorch_to_tflite_ok env dir name "float16" Provenance.real fs _ h rfl]
    simp [convFS, fsRemove, onnxPath, savedModelPath, FPath.mk.injEq]
  · rw [convert_models_success senv fs0 hs]
    simp [runFS, fsWrite, cwdPath]
  · rw [convert_models_success senv fs0 hs]
    simp [runFS, fsWrite, cwdPath]

/-- Witness for `cleanup_only_on_success` at concrete all-successful
environments. -/
theorem cleanup_only_on_success_witness :
    convFS (pytorch_to_tflite ⟨true, true, true, true, true, 64, 3⟩
        "out" "m" "float16" Provenance.real fsEmpty)
      (onnxPath "out" "m") = Option.none ∧
    convFS (pytorch_to_tflite ⟨true, true, true, true, true, 64, 3⟩
        "out" "m" "float16" Provenance.real fsEmpty)
      (savedModelPath "out" "m") = Option.none ∧
    runFS (convert_models
        ⟨true, true, true, true, true, true, true, true, true,
         64, 64, 8, ⟨true, true, 0⟩⟩ fsEmpty)
      (cwdPath "staff_detector" FileKind.onnxFile) = some (File.onnx 8) ∧
    runFS (convert_models
        ⟨true, true, true, true, true, true, true, true, true,
         64, 64, 8, ⟨true, true, 0⟩⟩ fsEmpty)
      (cwdPath "staff_detector" FileKind.savedModelDir) =
        some (File.savedModel 8) :=
  cleanup_only_on_success ⟨true, true, true, true, true, 64, 3⟩ "out" "m"
    fsEmpty
    ⟨true, true, true, true, true, true, true, true, true,
     64, 64, 8, ⟨true, true, 0⟩⟩ fsEmpty
    ⟨rfl, rfl, rfl, rfl, rfl⟩
    ⟨rfl, rfl, rfl, rfl, rfl, rfl, rfl, rfl, rfl⟩

/-- C3, counterexample. In `convert_oemer_to_tflite.py`, a run in
which both jobs produce real artifacts but their sizes total 60 MB
ends with `convert_and_validate` returning `False` and the process
exiting with code 1: exceeding the 50 MB budget flips the aggregate
outcome, contradicting the claim that success is independent of the
budget. -/
theorem budget_overrun_flips_exit_counterexample :
    provAt (convert_and_validate
        ⟨true, true, ⟨true, true, true, true, true, 31457280, 0⟩,
         ⟨true, true, true, true, true, 31457280, 1⟩⟩ "out" fsEmpty).2
      (tflitePath "out" "staff_detector") = some Provenance.real ∧
    provAt (convert_and_validate
        ⟨true, true, ⟨true, true, true, true, true, 31457280, 0⟩,
         ⟨true, true, true, true, true, 31457280, 1⟩⟩ "out" fsEmpty).2
      (tflitePath "out" "symbol_recognizer") = some Provenance.real ∧
    (convert_and_validate
        ⟨true, true, ⟨true, true, true, true, true, 31457280, 0⟩,
         ⟨true, true, true, true, true, 31457280, 1⟩⟩ "out" fsEmpty).1 =
      false ∧
    tfliteMainExit
        ⟨true, true, ⟨true, true, true, true, true, 31457280, 0⟩,
         ⟨true, true, true, true, true, 31457280, 1⟩⟩ "out" fsEmpty = 1 := by
  have hflag : (convert_and_validate
      ⟨true, true, ⟨true, true, true, true, true, 31457280, 0⟩,
       ⟨true, true, true, true, true, 31457280, 1⟩⟩ "out" fsEmpty).1 =
      budgetSuccess (sizeMB 31457280) (sizeMB 31457280) := rfl
  have hfalse : budgetSuccess (sizeMB 31457280) (sizeMB 31457280) = false := by
    norm_num [budgetSuccess, totalSizeMB, sizeMB]
  refine ⟨rfl, rfl, hflag.trans hfalse, ?_⟩
  unfold tfliteMainExit
  rw [hflag, hfalse]
  rfl

/-- C3, amended. The budget-independent exit behaviour holds only
in `convert_oemer_simple.py` (whose conversion functions return `True`
regardless of the size comparison); in `convert_oemer_to_tflite.py`
the aggregate success of a run producing both artifacts equals the
budget check `total_size <= 50`, so the exit code is 0 exactly when
the total is within budget. -/
theorem budget_gates_exit_in_class_script (env : PipelineEnv)
    (dir : String) (fs : FS) (senv : SimpleEnv) (fs0 : FS)
    (h1 : env.staffLoadOk = true) (h2 : env.symbolLoadOk = true)
    (h3 : env.staffConv.allOk) (h4 : env.symbolConv.allOk)
    (hs : senv.realChainOk) :
    (convert_and_validate env dir fs).1 =
      budgetSuccess (sizeMB env.staffConv.tfliteBytes)
        (sizeMB env.symbolConv.tfliteBytes) ∧
    tfliteMainExit env dir fs =
      (if budgetSuccess (sizeMB env.staffConv.tfliteBytes)
          (sizeMB env.symbolConv.tfliteBytes) then 0 else 1) ∧
    runOk (convert_models senv fs0) = some true := by
  have hpS := fun fsx => pytorch_to_tflite_ok env.staffConv dir
    "staff_detector" "float16" Provenance.real fsx _ h3 rfl
  have hpY := fun fsx => pytorch_to_tflite_ok env.symbolConv dir
    "symbol_recognizer" "float16" Provenance.real fsx _ h4 rfl
  refine ⟨?_, ?_, ?_⟩
  · simp [convert_and_validate, h1, h2, hpS, hpY]
  · simp [tfliteMainExit, convert_and_validate, h1, h2, hpS, hpY]
  · rw [convert_models_success senv fs0 hs]
    rfl

/-- Witness for `budget_gates_exit_in_class_script`: a 10 MB + 8 MB
run, within budget. -/
theorem budget_gates_exit_in_class_script_witness :
    (convert_and_validate
        ⟨true, true, ⟨true, true, true, true, true, 10485760, 0⟩,
         ⟨true, true, true, true, true, 8388608, 1⟩⟩ "out" fsEmpty).1 =
      budgetSuccess (sizeMB 10485760) (sizeMB 8388608) ∧
    tfliteMainExit
        ⟨true, true, ⟨true, true, true, true, true, 10485760, 0⟩,
         ⟨true, true, true, true, true, 8388608, 1⟩⟩ "out" fsEmpty =
      (if budgetSuccess (sizeMB 10485760) (sizeMB 8388608)
       then 0 else 1) ∧
    runOk (convert_models
        ⟨true, true, true, true, true, true, true, true, true,
         64, 64, 8, ⟨true, true, 0⟩⟩ fsEmpty) = some true :=
  budget_gates_exit_in_class_script
    ⟨true, true, ⟨true, true, true, true, true, 10485760, 0⟩,
     ⟨true, true, true, true, true, 8388608, 1⟩⟩ "out" fsEmpty
    ⟨true, true, true, true, true, true, true, true, true,
     64, 64, 8, ⟨true, true, 0⟩⟩ fsEmpty
    rfl rfl ⟨rfl, rfl, rfl, rfl, rfl⟩ ⟨rfl, rfl, rfl, rfl, rfl⟩
    ⟨rfl, rfl, rfl, rfl, rfl, rfl, rfl, rfl, rfl⟩

end Oemer
